import Mathlib

/-!
Verification of the connection-establishment layer of an MQTT client/server
stack (`src/v5/client/connector.rs` and `src/v5/selector.rs`).

The embedding is shallow: the async functions are modelled as pure functions
over the outcomes of their suspension points (transport connect result, first
frame read, timeout race winner).  Machine integers (`u16`, `u32`, `usize`)
are modelled as `Nat`; `NonZeroU16`/`NonZeroU32` values are the positive
naturals, carried inside `Option` exactly as in the source.  The external
frame codec, the `Seconds` helpers of the runtime and the error enums of
`src/error.rs` / `src/v5/client/error.rs` (present in the repository but not
under `src/`) are modelled from the spec and from their use sites.
-/

namespace NtexMqtt

/-- Modelled from the spec: the Connect Request packet (section 3, client
authored, built by the connector's fluent configuration calls).  Only the
fields the handshake logic reads are carried; an absent optional field means
unlimited. -/
structure Connect where
  client_id : String := ""
  clean_start : Bool := false
  keep_alive : Nat := 30
  max_packet_size : Option Nat := none
  receive_max : Option Nat := some 16
deriving DecidableEq

/-- Modelled from the spec: the success/failure reason code of a Connect
Acknowledgment.  The handshake logic only compares against `Success`. -/
inductive ConnectAckReason where
  | Success
  | Failure (code : Nat)
deriving DecidableEq

/-- Modelled from the spec: the Connect Acknowledgment packet (section 3,
server authored, read-only to the client). -/
structure ConnectAck where
  session_present : Bool := false
  reason_code : ConnectAckReason := ConnectAckReason.Success
  server_keepalive_sec : Option Nat := none
  receive_max : Option Nat := none
  max_packet_size : Option Nat := none
deriving DecidableEq

/-- Modelled from the spec: a decoded protocol frame.  Frames other than
CONNECT and CONNECT-ACK are abstracted to their packet-type tag, which is all
the handshake logic reads of them (`packet_type()`). -/
inductive Packet where
  | Connect (pkt : Connect)
  | ConnectAck (pkt : ConnectAck)
  | Other (ptype : Nat)
deriving DecidableEq

/-- Modelled from the spec: `Packet::packet_type()` of the external codec;
CONNECT is wire type 1, CONNECT-ACK is wire type 2. -/
def Packet.packet_type : Packet → Nat
  | .Connect _ => 1
  | .ConnectAck _ => 2
  | .Other ptype => ptype

/-- The two `&'static str` messages built by `ProtocolError::Unexpected` in
the two given source files. -/
def expectedConnectAckMsg : String := "Expected CONNECT-ACK packet"

/-- Message attached by the server selector when the first frame is not
CONNECT, citing the MQTT-3.1.0-1 rule. -/
def expectedConnectMsg : String := "MQTT-3.1.0-1: Expected CONNECT packet"

/-- Modelled from the spec: `ProtocolError` (error taxonomy, section 7).
`Unexpected` carries the received packet type and the expectation message, as
at its two construction sites in the given sources; `Decode` abstracts a
codec decode error. -/
inductive ProtocolError where
  | Decode (e : Nat)
  | Unexpected (ptype : Nat) (msg : String)
deriving DecidableEq

/-- Modelled from the spec: `ClientError` (error taxonomy, section 7), the
result type of the client connector.  `Connect` abstracts a transport
connect failure. -/
inductive ClientError where
  | Connect (e : Nat)
  | Ack (pkt : ConnectAck)
  | Protocol (e : ProtocolError)
  | HandshakeTimeout
  | Disconnected
deriving DecidableEq

/-- Modelled from the spec: `MqttError` (error taxonomy, section 7), the
error type of the server selector.  `Service` abstracts a variant's own
error. -/
inductive MqttError where
  | Service (e : Nat)
  | Protocol (e : ProtocolError)
  | HandshakeTimeout
  | Disconnected
  | ServerError (msg : String)
deriving DecidableEq

/-- Outcome of awaiting `state.next(&mut io, &codec)`: a decode error, a
cleanly closed peer (`Ok(None)`), or a decoded frame (`Ok(Some(p))`). -/
inductive ReadOutcome where
  | err (e : Nat)
  | closed
  | frame (p : Packet)
deriving DecidableEq

/-- The observable state of `MqttShared`: the codec limits and the in-flight
credit counter (`cap`).  The inbound limit is fixed at construction; the
outbound limit starts unset (`set_max_outbound_size` not yet called); `cap`
starts at 0. -/
structure MqttSharedModel where
  max_inbound_size : Nat
  max_outbound_size : Option Nat
  cap : Nat
deriving DecidableEq

/-- The data `Client::new(io, shared, pkt, max_receive, keep_alive,
disconnect_timeout)` is given on a successful handshake (the transport handle
`io` abstracted away). -/
structure ClientModel where
  shared : MqttSharedModel
  ack : ConnectAck
  max_receive : Nat
  keep_alive : Nat
  disconnect_timeout : Nat
deriving DecidableEq

/-- The configuration a `MqttConnector` carries into a connect attempt: the
Connect Request built so far and the two timeouts (`Seconds` as `Nat`). -/
structure MqttConnector where
  pkt : Connect := {}
  handshake_timeout : Nat := 0
  disconnect_timeout : Nat := 3
deriving DecidableEq

/-- `NonZeroU32::new` / `NonZeroU16::new`: `Some` exactly on a nonzero
argument. -/
def nonZeroNew (v : Nat) : Option Nat :=
  if v = 0 then none else some v

/-- `MqttConnector::max_packet_size` (connector.rs lines 114-121): store the
value as the Connect Request's max-packet-size when nonzero, clear the field
when zero. -/
def MqttConnector.max_packet_size (self : MqttConnector) (val : Nat) : MqttConnector :=
  match nonZeroNew val with
  | some v => { self with pkt := { self.pkt with max_packet_size := some v } }
  | none => { self with pkt := { self.pkt with max_packet_size := none } }

/-- `MqttConnector::receive_max` (connector.rs lines 128-135): store the
value as the Connect Request's receive-max when nonzero, clear the field when
zero. -/
def MqttConnector.receive_max (self : MqttConnector) (val : Nat) : MqttConnector :=
  match nonZeroNew val with
  | some v => { self with pkt := { self.pkt with receive_max := some v } }
  | none => { self with pkt := { self.pkt with receive_max := none } }

/-- `MqttConnector::_connect` (connector.rs lines 247-307), as a function of
the transport connect outcome (`fut.await?`) and of the first frame read in
reply to CONNECT.  The CONNECT write is taken to succeed (a write failure
aborts before any of the behaviour modelled here). -/
def MqttConnector.handshake (self : MqttConnector) (transport : Except Nat Unit)
    (read : ReadOutcome) : Except ClientError ClientModel :=
  let pkt := self.pkt
  let keep_alive := pkt.keep_alive
  let max_packet_size := (pkt.max_packet_size).getD 0
  let max_receive := (pkt.receive_max).getD 0
  let disconnect_timeout := self.disconnect_timeout
  match transport with
  | .error e => .error (ClientError.Connect e)
  | .ok _ =>
    match read with
    | .err e => .error (ClientError.Protocol (ProtocolError.Decode e))
    | .closed => .error ClientError.Disconnected
    | .frame packet =>
      let shared : MqttSharedModel :=
        { max_inbound_size := max_packet_size, max_outbound_size := none, cap := 0 }
      match packet with
      | .ConnectAck ackPkt =>
        if ackPkt.reason_code = ConnectAckReason.Success then
          let shared :=
            match ackPkt.max_packet_size with
            | some size => { shared with max_outbound_size := some size }
            | none => shared
          let keep_alive := (ackPkt.server_keepalive_sec).getD keep_alive
          let shared := { shared with cap := (ackPkt.receive_max).getD 0 }
          .ok { shared := shared, ack := ackPkt, max_receive := max_receive,
                keep_alive := keep_alive, disconnect_timeout := disconnect_timeout }
        else
          .error (ClientError.Ack ackPkt)
      | p =>
        .error (ClientError.Protocol
          (ProtocolError.Unexpected (p.packet_type) expectedConnectAckMsg))

/-- `MqttConnector::connect` (connector.rs lines 233-245): with a nonzero
handshake timeout the inner handshake races a timer (`timerFirst` says which
future completes first); with the timeout at zero no timer exists and the
inner handshake's result is returned as is. -/
def MqttConnector.connect (self : MqttConnector) (timerFirst : Bool)
    (transport : Except Nat Unit) (read : ReadOutcome) : Except ClientError ClientModel :=
  if self.handshake_timeout ≠ 0 then
    if timerFirst then .error ClientError.HandshakeTimeout
    else self.handshake transport read
  else
    self.handshake transport read

/-- Modelled from the spec: `Seconds::map(sleep)` of the runtime — a zero
timeout disables the timer entirely (spec section 3, invariants: no timer is
created from a zero duration), so mapping the timer constructor over a
duration yields `none` at zero and the unchanged duration otherwise. -/
def secondsMap (s : Nat) : Option Nat :=
  if s = 0 then none else some s

/-- The observable state of the `SelectItem` tuple `(Handshake::new(connect,
io, shared, 0, 0, 0), state, delay)` built by the selector: the parsed
Connect Request, the shared record, and the optional expiry timer (its
duration), with the transport handle and connection state abstracted away. -/
structure SelectItem where
  connect : Connect
  shared : MqttSharedModel
  delay : Option Nat
deriving DecidableEq

/-- A registered variant's reply to being offered a `SelectItem`:
`Either::Left(item)` declines and hands an item back, `Either::Right(())`
accepts and is terminal. -/
inductive VariantResult where
  | left (item : SelectItem)
  | right
deriving DecidableEq

/-- A registered variant service, as the selector observes it: offered a
`SelectItem` it fails, declines with an item, or accepts
(`srv.call(item).await?`). -/
def Variant : Type := SelectItem → Except MqttError VariantResult

/-- The variant loop of `SelectorService::call` (selector.rs lines 263-272):
offer the item to each server in order; a `Left` reply threads its item to
the next server, a `Right` reply ends the call with success, an error ends it
with that error; an exhausted list is the fixed `ServerError`. -/
def runVariants : List Variant → SelectItem → Except MqttError Unit
  | [], _ => .error (MqttError.ServerError "Cannot handle CONNECT packet")
  | srv :: rest, item =>
    match srv item with
    | .error e => .error e
    | .ok (.left result) => runVariants rest result
    | .ok .right => .ok ()

/-- The configuration of a `SelectorService`: the registered variants in
registration order, the inbound frame-size cap, and the handshake timeout. -/
structure SelectorService where
  servers : List Variant
  max_size : Nat
  handshake_timeout : Nat

/-- `SelectorService::call` (selector.rs lines 223-274), as a function of the
outcome of the first frame read.  The timer `delay` is created from the
configured handshake timeout (`self.handshake_timeout.map(sleep)`) and placed
into the item offered to the variants; it is never raced with the read. -/
def SelectorService.call (self : SelectorService) (read : ReadOutcome) :
    Except MqttError Unit :=
  let shared : MqttSharedModel :=
    { max_inbound_size := self.max_size, max_outbound_size := none, cap := 0 }
  let delay := secondsMap self.handshake_timeout
  match read with
  | .err e => .error (MqttError.Protocol (ProtocolError.Decode e))
  | .closed => .error MqttError.Disconnected
  | .frame packet =>
    match packet with
    | .Connect connect =>
      runVariants self.servers { connect := connect, shared := shared, delay := delay }
    | p =>
      .error (MqttError.Protocol
        (ProtocolError.Unexpected (p.packet_type) expectedConnectMsg))

/-- `SelectorService::call` including the suspension on the first frame read:
`none` is a read that never completes (the peer sends nothing), on which the
whole call stays pending — nothing in the call races that await against the
handshake timer. -/
def SelectorService.call_outcome (self : SelectorService) (read : Option ReadOutcome) :
    Option (Except MqttError Unit) :=
  match read with
  | none => none
  | some r => some (self.call r)

/-- One variant's `poll_ready` result: `Poll::Ready(Ok(()))`,
`Poll::Ready(Err(e))`, or `Poll::Pending`. -/
inductive PollReady where
  | readyOk
  | readyErr (e : MqttError)
  | pending
deriving DecidableEq

/-- The accumulator loop of `SelectorService::poll_ready` (selector.rs lines
197-207): `ready &= srv.poll_ready(cx)?.is_ready()` over the servers — an
`Err` propagates immediately through `?`, otherwise the readiness bits are
conjoined and the final flag picks `Ready(Ok(()))` or `Pending`. -/
def poll_ready_loop (ready : Bool) : List PollReady → PollReady
  | [] => if ready then .readyOk else .pending
  | p :: rest =>
    match p with
    | .readyErr e => .readyErr e
    | .readyOk => poll_ready_loop (ready && true) rest
    | .pending => poll_ready_loop (ready && false) rest

/-- `SelectorService::poll_ready`, given each registered variant's poll
result in registration order. -/
def selector_poll_ready (polls : List PollReady) : PollReady :=
  poll_ready_loop true polls

/-- The accumulator loop of `SelectorService::poll_shutdown` (selector.rs
lines 210-220): `ready &= srv.poll_shutdown(cx, is_error).is_ready()` over
the servers; the result is whether the conjoined flag reports `Ready`. -/
def poll_shutdown_loop (ready : Bool) : List Bool → Bool
  | [] => ready
  | p :: rest => poll_shutdown_loop (ready && p) rest

/-- `SelectorService::poll_shutdown`, given whether each registered variant's
shutdown poll reported `Ready`, in registration order; `true` means the
selector's shutdown reports `Ready`. -/
def selector_poll_shutdown (polls : List Bool) : Bool :=
  poll_shutdown_loop true polls

/-- Each variant in the list, offered the item threaded from its predecessor,
declines and hands an item on to the next. -/
def allDecline : List Variant → SelectItem → Prop
  | [], _ => True
  | srv :: rest, item => ∃ result, srv item = .ok (.left result) ∧ allDecline rest result

/-- Helper: the raced handshake body itself never yields `HandshakeTimeout`;
that error only arises from the timer wrapper in `connect`. -/
theorem handshake_no_timeout_error (self : MqttConnector) (transport : Except Nat Unit)
    (read : ReadOutcome) :
    self.handshake transport read ≠ .error ClientError.HandshakeTimeout := by
  unfold MqttConnector.handshake
  rcases transport with e | u
  · simp
  · rcases read with e | _ | p
    · simp
    · simp
    · rcases p with c | a | t
      · simp
      · by_cases hr : a.reason_code = ConnectAckReason.Success
        · cases a.max_packet_size <;> simp [hr]
        · simp [hr]
      · simp

/-- Claim C1: on a successful Connect Acknowledgment the negotiated
parameters are merged — the session's in-flight credit cap equals the ack's
receive-max when present and 0 (unbounded) when absent; the effective
keep-alive equals the ack's server keep-alive override when present, else the
originally requested keep-alive; and the outbound codec size limit is set
from the ack's max-packet-size exactly when that field is present. -/
theorem connack_success_merges_params (self : MqttConnector) (ack : ConnectAck)
    (cl : ClientModel)
    (hs : ack.reason_code = ConnectAckReason.Success)
    (hres : self.handshake (.ok ()) (.frame (.ConnectAck ack)) = .ok cl) :
    cl.shared.cap = (ack.receive_max).getD 0
    ∧ cl.keep_alive = (ack.server_keepalive_sec).getD self.pkt.keep_alive
    ∧ cl.shared.max_outbound_size = ack.max_packet_size := by
  cases hmp : ack.max_packet_size with
  | none =>
    simp [MqttConnector.handshake, hs, hmp] at hres
    subst hres
    simp [hmp]
  | some size =>
    simp [MqttConnector.handshake, hs, hmp] at hres
    subst hres
    simp [hmp]

/-- Concrete ack used to witness the parameter merge: success, server
keep-alive 60, receive-max 8, max-packet-size 1024. -/
def ackSuccessW : ConnectAck :=
  { reason_code := ConnectAckReason.Success, server_keepalive_sec := some 60,
    receive_max := some 8, max_packet_size := some 1024 }

/-- The session the default connector configuration produces on
`ackSuccessW`. -/
def clientSuccessW : ClientModel :=
  { shared := { max_inbound_size := 0, max_outbound_size := some 1024, cap := 8 },
    ack := ackSuccessW, max_receive := 16, keep_alive := 60, disconnect_timeout := 3 }

/-- Witness for C1 at the default configuration and `ackSuccessW`. -/
theorem connack_success_merges_params_witness :
    clientSuccessW.shared.cap = (ackSuccessW.receive_max).getD 0
    ∧ clientSuccessW.keep_alive
        = (ackSuccessW.server_keepalive_sec).getD (({} : MqttConnector).pkt.keep_alive)
    ∧ clientSuccessW.shared.max_outbound_size = ackSuccessW.max_packet_size :=
  connack_success_merges_params {} ackSuccessW clientSuccessW rfl rfl

/-- Claim C2: with handshake timeout 0 a connect attempt never resolves to
`HandshakeTimeout`; with a nonzero timeout the raced attempt resolves to
`HandshakeTimeout` exactly when the timer completes first (the losing
attempt's result is simply dropped). -/
theorem connect_timeout_race (self : MqttConnector) (timerFirst : Bool)
    (transport : Except Nat Unit) (read : ReadOutcome) :
    (self.handshake_timeout = 0 →
      self.connect timerFirst transport read ≠ .error ClientError.HandshakeTimeout)
    ∧ (self.handshake_timeout ≠ 0 →
      (self.connect timerFirst transport read = .error ClientError.HandshakeTimeout
        ↔ timerFirst = true)) := by
  constructor
  · intro h0
    simp [MqttConnector.connect, h0]
    exact handshake_no_timeout_error self transport read
  · intro hne
    cases timerFirst with
    | true => simp [MqttConnector.connect, hne]
    | false =>
      simp [MqttConnector.connect, hne]
      exact handshake_no_timeout_error self transport read

/-- Witness for C2 at timeout 0 and timeout 5 (timer first). -/
theorem connect_timeout_race_witness :
    (({} : MqttConnector).connect true (.ok ()) .closed
      ≠ .error ClientError.HandshakeTimeout)
    ∧ (({ handshake_timeout := 5 } : MqttConnector).connect true (.ok ()) .closed
        = .error ClientError.HandshakeTimeout ↔ true = true) :=
  ⟨(connect_timeout_race {} true (.ok ()) .closed).1 rfl,
   (connect_timeout_race { handshake_timeout := 5 } true (.ok ()) .closed).2 (by decide)⟩

/-- Claim C5: a Connect Acknowledgment whose reason code is not `Success`
makes the connect attempt fail with an `Ack` error carrying that exact
acknowledgment unchanged. -/
theorem connack_failure_is_ack_error (self : MqttConnector) (ack : ConnectAck)
    (h : ack.reason_code ≠ ConnectAckReason.Success) :
    self.handshake (.ok ()) (.frame (.ConnectAck ack))
      = .error (ClientError.Ack ack) := by
  simp [MqttConnector.handshake, h]

/-- Witness for C5 at reason code 135 (not authorized). -/
theorem connack_failure_is_ack_error_witness :
    ({} : MqttConnector).handshake (.ok ())
        (.frame (.ConnectAck { reason_code := ConnectAckReason.Failure 135 }))
      = .error (ClientError.Ack { reason_code := ConnectAckReason.Failure 135 }) :=
  connack_failure_is_ack_error {} { reason_code := ConnectAckReason.Failure 135 }
    (by decide)

/-- Claim C6: a peer that closes the stream before the required first frame
yields the `Disconnected` error — on the client when no frame arrives in
reply to CONNECT, and on the server when the connection yields no frame at
all. -/
theorem peer_close_is_disconnected (self : MqttConnector) (sel : SelectorService) :
    self.handshake (.ok ()) ReadOutcome.closed = .error ClientError.Disconnected
    ∧ sel.call ReadOutcome.closed = .error MqttError.Disconnected :=
  ⟨rfl, rfl⟩

/-- Claim C7: any frame other than a Connect Acknowledgment received in reply
to CONNECT fails the connect attempt with a `Protocol/Unexpected` error
naming the received frame's packet type and the expectation CONNECT-ACK. -/
theorem client_unexpected_frame (self : MqttConnector) (p : Packet)
    (h : ∀ a, p ≠ Packet.ConnectAck a) :
    self.handshake (.ok ()) (.frame p)
      = .error (ClientError.Protocol
          (ProtocolError.Unexpected (p.packet_type) expectedConnectAckMsg)) := by
  cases p with
  | Connect c => rfl
  | ConnectAck a => exact absurd rfl (h a)
  | Other t => rfl

/-- Witness for C7 at a PUBLISH frame (packet type 3). -/
theorem client_unexpected_frame_witness :
    ({} : MqttConnector).handshake (.ok ()) (.frame (Packet.Other 3))
      = .error (ClientError.Protocol
          (ProtocolError.Unexpected ((Packet.Other 3).packet_type)
            expectedConnectAckMsg)) :=
  client_unexpected_frame {} (Packet.Other 3)
    (by intro a hcon; exact Packet.noConfusion hcon)

/-- Claim C9: the builder's `max_packet_size` stores no inbound limit when
given 0 and the limit itself when nonzero, and `receive_max` stores no credit
advertisement when given 0 and the cap itself when nonzero, in both cases
overwriting whatever was configured before. -/
theorem builder_zero_disables (self : MqttConnector) (v r : Nat) :
    ((self.max_packet_size v).pkt.max_packet_size
        = if v = 0 then none else some v)
    ∧ ((self.receive_max r).pkt.receive_max
        = if r = 0 then none else some r) := by
  constructor
  · by_cases hv : v = 0 <;> simp [MqttConnector.max_packet_size, nonZeroNew, hv]
  · by_cases hr : r = 0 <;> simp [MqttConnector.receive_max, nonZeroNew, hr]

/-- Claim C3: a server-accepted connection whose first decoded frame is not
CONNECT fails with a `Protocol/Unexpected` error naming the received packet
type and citing the MQTT-3.1.0-1 CONNECT-first rule, and no registered
variant is ever invoked — the outcome is the same for any set of registered
variants (and any configuration). -/
theorem selector_rejects_non_connect (sel sel2 : SelectorService) (p : Packet)
    (h : ∀ c, p ≠ Packet.Connect c) :
    sel.call (.frame p)
      = .error (MqttError.Protocol
          (ProtocolError.Unexpected (p.packet_type) expectedConnectMsg))
    ∧ sel.call (.frame p) = sel2.call (.frame p) := by
  cases p with
  | Connect c => exact absurd rfl (h c)
  | ConnectAck a => exact ⟨rfl, rfl⟩
  | Other t => exact ⟨rfl, rfl⟩

/-- Witness for C3 at a PUBLISH first frame (packet type 3) and two selectors
with different variant lists. -/
theorem selector_rejects_non_connect_witness :
    SelectorService.call { servers := [], max_size := 0, handshake_timeout := 0 }
        (.frame (Packet.Other 3))
      = .error (MqttError.Protocol
          (ProtocolError.Unexpected ((Packet.Other 3).packet_type) expectedConnectMsg))
    ∧ SelectorService.call { servers := [], max_size := 0, handshake_timeout := 0 }
          (.frame (Packet.Other 3))
        = SelectorService.call
            { servers := [fun _ => .ok .right], max_size := 10, handshake_timeout := 7 }
            (.frame (Packet.Other 3)) :=
  selector_rejects_non_connect
    { servers := [], max_size := 0, handshake_timeout := 0 }
    { servers := [fun _ => .ok .right], max_size := 10, handshake_timeout := 7 }
    (Packet.Other 3)
    (by intro c hcon; exact Packet.noConfusion hcon)

/-- Helper: a chain in which every variant declines (each handing its item to
the next) ends in the fixed `ServerError`. -/
theorem allDecline_exhausts :
    ∀ (servers : List Variant) (item : SelectItem), allDecline servers item →
      runVariants servers item
        = .error (MqttError.ServerError "Cannot handle CONNECT packet")
  | [], _, _ => rfl
  | srv :: rest, item, h => by
    obtain ⟨result, hsrv, hrest⟩ := h
    simp only [runVariants, hsrv]
    exact allDecline_exhausts rest result hrest

/-- Claim C4: the Handshake Item is offered to the variants strictly in
registration order — a declining variant's returned item is offered to the
next variant; an accepting variant's outcome is terminal and independent of
the variants after it (as is a failing one's); and a chain in which every
variant declines fails with the `ServerError` message about the CONNECT
packet. -/
theorem variant_chain_order (srv : Variant) (rest : List Variant)
    (item result : SelectItem) (e : MqttError) (servers : List Variant) :
    (srv item = .ok (.left result) →
      runVariants (srv :: rest) item = runVariants rest result)
    ∧ (srv item = .ok .right → runVariants (srv :: rest) item = .ok ())
    ∧ (srv item = .error e → runVariants (srv :: rest) item = .error e)
    ∧ (allDecline servers item →
      runVariants servers item
        = .error (MqttError.ServerError "Cannot handle CONNECT packet")) := by
  refine ⟨?_, ?_, ?_, ?_⟩
  · intro h; simp only [runVariants, h]
  · intro h; simp only [runVariants, h]
  · intro h; simp only [runVariants, h]
  · intro h; exact allDecline_exhausts servers item h

/-- A variant that always declines, handing the item back unchanged. -/
def declineW : Variant := fun item => .ok (.left item)

/-- A variant that always accepts. -/
def acceptW : Variant := fun _ => .ok .right

/-- A variant that always fails with `Disconnected`. -/
def failW : Variant := fun _ => .error MqttError.Disconnected

/-- A concrete Handshake Item for the witnesses. -/
def itemW : SelectItem :=
  { connect := {},
    shared := { max_inbound_size := 0, max_outbound_size := none, cap := 0 },
    delay := none }

/-- Witness for C4 on concrete two-variant chains. -/
theorem variant_chain_order_witness :
    runVariants [declineW, acceptW] itemW = runVariants [acceptW] itemW
    ∧ runVariants (acceptW :: [declineW]) itemW = .ok ()
    ∧ runVariants (failW :: [acceptW]) itemW = .error MqttError.Disconnected
    ∧ runVariants [declineW] itemW
        = .error (MqttError.ServerError "Cannot handle CONNECT packet") :=
  ⟨(variant_chain_order declineW [acceptW] itemW itemW MqttError.Disconnected []).1 rfl,
   (variant_chain_order acceptW [declineW] itemW itemW MqttError.Disconnected []).2.1 rfl,
   (variant_chain_order failW [acceptW] itemW itemW MqttError.Disconnected []).2.2.1 rfl,
   (variant_chain_order declineW [] itemW itemW MqttError.Disconnected
      [declineW]).2.2.2 ⟨itemW, rfl, trivial⟩⟩

/-- Helper: the readiness loop reports `Ready(Ok(()))` exactly when the
accumulator holds and every remaining poll is `Ready(Ok(()))`. -/
theorem poll_ready_loop_readyOk (polls : List PollReady) : ∀ ready : Bool,
    poll_ready_loop ready polls = .readyOk
      ↔ (ready = true ∧ ∀ p ∈ polls, p = .readyOk) := by
  induction polls with
  | nil => intro ready; cases ready <;> simp [poll_ready_loop]
  | cons p rest ih =>
    intro ready
    cases p with
    | readyOk => simp [poll_ready_loop, ih]
    | readyErr e => simp [poll_ready_loop]
    | pending => simp [poll_ready_loop, ih]

/-- Helper: the shutdown loop reports `Ready` exactly when the accumulator
holds and every remaining poll reported `Ready`. -/
theorem poll_shutdown_loop_true (polls : List Bool) : ∀ ready : Bool,
    poll_shutdown_loop ready polls = true
      ↔ (ready = true ∧ ∀ b ∈ polls, b = true) := by
  induction polls with
  | nil => intro ready; simp [poll_shutdown_loop]
  | cons b rest ih =>
    intro ready
    simp [poll_shutdown_loop, ih, and_assoc]

/-- Claim C8: the selector is ready exactly when every registered variant
service is ready, and its shutdown completes exactly when every registered
variant's shutdown has completed — the conjunction over all variants in both
cases. -/
theorem selector_ready_shutdown_conj (polls : List PollReady) (shut : List Bool) :
    (selector_poll_ready polls = .readyOk ↔ ∀ p ∈ polls, p = .readyOk)
    ∧ (selector_poll_shutdown shut = true ↔ ∀ b ∈ shut, b = true) := by
  constructor
  · simpa [selector_poll_ready] using poll_ready_loop_readyOk polls true
  · simpa [selector_poll_shutdown] using poll_shutdown_loop_true shut true

/-- Claim C10: the configured handshake timeout never bounds the selector's
own pre-acceptance read of the first frame — a connection whose peer sends
nothing stays pending at the selector boundary for every configured timeout
(no timeout error resolves there), and on a CONNECT frame the timer created
from the configured timeout is placed unchanged into the Handshake Item
offered to the variants. -/
theorem selector_timer_passthrough (sel : SelectorService) (c : Connect) :
    sel.call_outcome none = none
    ∧ sel.call (.frame (Packet.Connect c))
      = runVariants sel.servers
          { connect := c,
            shared := { max_inbound_size := sel.max_size,
                        max_outbound_size := none, cap := 0 },
            delay := secondsMap sel.handshake_timeout } :=
  ⟨rfl, rfl⟩

end NtexMqtt
